import Mathlib

/-!
Shallow embedding of the ForexRSIBot core from src/main.py: the RSI engine
(calculate_rsi), the candle scheduler (should_check_timeframe), the daily
quota governor (reset_daily_counter, can_make_request, the inline counter
increment of get_forex_data), and the alert deduplicator (should_send_alert).
Times are rationals counting seconds, dates are natural day ordinals, prices
and RSI values are rationals.  Fallible paths return Option or a Bool result
flag together with the updated state.
-/

/-- Threshold rsi_oversold = 30 set in ForexRSIBot init. -/
def rsi_oversold : ℚ := 30

/-- Threshold rsi_overbought = 70 set in ForexRSIBot init. -/
def rsi_overbought : ℚ := 70

/-- Ceiling max_daily_requests = 780 set in ForexRSIBot init. -/
def max_daily_requests : ℕ := 780

/-- Cooldown of 14400 seconds (4 hours), the literal in should_send_alert. -/
def cooldown_seconds : ℚ := 14400

/-! ## Candle scheduler -/

/-- Embedding of ForexRSIBot.should_check_timeframe.  The current UTC hour and
minute, read in the source from datetime.now, are explicit arguments. -/
def should_check_timeframe (timeframe : String) (current_hour current_minute : ℕ) : Bool :=
  if current_minute > 2 then false
  else if timeframe = "1h" then true
  else if timeframe = "4h" then decide (current_hour % 4 = 0)
  else false

/-! ## Quota governor -/

/-- The API usage tracking state: daily_requests and last_reset from
ForexRSIBot init, with the date modelled as a natural day ordinal. -/
structure QuotaState where
  daily_requests : ℕ
  last_reset : ℕ
  deriving DecidableEq

/-- Embedding of ForexRSIBot.reset_daily_counter; current_date stands for
datetime.now().date(). -/
def reset_daily_counter (s : QuotaState) (current_date : ℕ) : QuotaState :=
  if current_date > s.last_reset then ⟨0, current_date⟩ else s

/-- Embedding of ForexRSIBot.can_make_request: it first runs
reset_daily_counter, then compares the counter with the ceiling.  The updated
state is returned alongside the boolean. -/
def can_make_request (s : QuotaState) (current_date : ℕ) : QuotaState × Bool :=
  let s1 := reset_daily_counter s current_date
  (s1, decide (s1.daily_requests < max_daily_requests))

/-- The inline counter increment self.daily_requests += 1 performed in
get_forex_data once a response object has been obtained. -/
def record_spend (s : QuotaState) : QuotaState :=
  ⟨s.daily_requests + 1, s.last_reset⟩

/-! ## Fetch path -/

/-- Outcome of one attempted HTTP request in get_forex_data.  requestTimeout
is an asyncio.TimeoutError raised while awaiting the response from
session.get; requestError is any other exception raised there; response
carries the HTTP status and the parsed body: none when response.json() raises
(malformed payload), some codeField otherwise, where codeField is the value
of the optional code entry of the JSON object. -/
inductive FetchOutcome where
  | requestTimeout
  | requestError
  | response (status : ℕ) (body : Option (Option ℕ))
  deriving DecidableEq

/-- Embedding of ForexRSIBot.get_forex_data, state and control flow only: the
returned Bool is true when the function returns the data dictionary and false
when it returns None.  The counter increment sits inside the response context,
after the response object is obtained, exactly as in the source; exceptions
raised while awaiting the response are caught by the except clauses after the
increment was skipped. -/
def get_forex_data (s : QuotaState) (current_date : ℕ) (outcome : FetchOutcome) :
    QuotaState × Bool :=
  let c := can_make_request s current_date
  if c.2 = false then (c.1, false)
  else
    match outcome with
    | .requestTimeout => (c.1, false)
    | .requestError => (c.1, false)
    | .response status body =>
      let s1 := record_spend c.1
      if status = 200 then
        match body with
        | none => (s1, false)
        | some codeField =>
          match codeField with
          | some code => if code ≠ 200 then (s1, false) else (s1, true)
          | none => (s1, true)
      else (s1, false)

/-- Helper for stating the amended quota claim: whether the attempt reached
the point where a response object exists. -/
def receivedResponse : FetchOutcome → Bool
  | .requestTimeout => false
  | .requestError => false
  | .response _ _ => true

/-! ## Alert deduplicator -/

/-- Lookup in the last_alerts dictionary, modelled as an association list of
key and alert time. -/
def lookupAlert : List (String × ℚ) → String → Option ℚ
  | [], _ => none
  | (k0, t0) :: rest, key => if k0 = key then some t0 else lookupAlert rest key

/-- Dictionary assignment self.last_alerts[key] = t: replace the value when
the key is present, append the pair otherwise. -/
def storeAlert : List (String × ℚ) → String → ℚ → List (String × ℚ)
  | [], key, t => [(key, t)]
  | (k0, t0) :: rest, key, t =>
    if k0 = key then (key, t) :: rest else (k0, t0) :: storeAlert rest key t

/-- Embedding of ForexRSIBot.should_send_alert.  last_alerts is the mutable
dictionary, current_time stands for datetime.now() in seconds; the updated
dictionary is returned alongside the boolean. -/
def should_send_alert (last_alerts : List (String × ℚ)) (symbol interval : String)
    (rsi : ℚ) (current_time : ℚ) : List (String × ℚ) × Bool :=
  let key := symbol ++ "_" ++ interval
  let is_oversold := rsi ≤ rsi_oversold
  let is_overbought := rsi_overbought ≤ rsi
  if ¬ (is_oversold ∨ is_overbought) then (last_alerts, false)
  else
    match lookupAlert last_alerts key with
    | some t =>
      if current_time - t < cooldown_seconds then (last_alerts, false)
      else (storeAlert last_alerts key current_time, true)
    | none => (storeAlert last_alerts key current_time, true)

/-! ## RSI engine -/

/-- Rounding to 2 decimal digits, the round(rsi, 2) call of calculate_rsi.
Mathlib round is used for the integer rounding; no claim in this development
depends on the tie-breaking rule. -/
def round2 (x : ℚ) : ℚ := ((round (x * 100) : ℤ) : ℚ) / 100

/-- One step of the Wilders smoothing loop of calculate_rsi:
avg = (avg * (period - 1) + new_value) / period. -/
def wilderStep (period : ℕ) (avg new_value : ℚ) : ℚ :=
  (avg * ((period : ℚ) - 1) + new_value) / (period : ℚ)

/-- The deltas list of calculate_rsi: prices[i] - prices[i-1] for i from 1. -/
def rsiDeltas (prices : List ℚ) : List ℚ :=
  List.zipWith (fun a b => a - b) prices.tail prices

/-- The gains list of calculate_rsi: delta if delta > 0 else 0. -/
def rsiGains (prices : List ℚ) : List ℚ :=
  (rsiDeltas prices).map (fun d => if 0 < d then d else 0)

/-- The losses list of calculate_rsi: -delta if delta < 0 else 0. -/
def rsiLosses (prices : List ℚ) : List ℚ :=
  (rsiDeltas prices).map (fun d => if d < 0 then -d else 0)

/-- The seed average over the first period entries followed by the Wilders
smoothing loop over the remaining entries, as performed by calculate_rsi on
the gains list and on the losses list. -/
def smoothedAvg (period : ℕ) (l : List ℚ) : ℚ :=
  (l.drop period).foldl (wilderStep period) ((l.take period).sum / (period : ℚ))

/-- Embedding of ForexRSIBot.calculate_rsi. -/
def calculate_rsi (prices : List ℚ) (period : ℕ := 14) : Option ℚ :=
  if prices.length < period + 1 then none
  else
    let avg_gain := smoothedAvg period (rsiGains prices)
    let avg_loss := smoothedAvg period (rsiLosses prices)
    if avg_loss = 0 then some 100
    else some (round2 (100 - 100 / (1 + avg_gain / avg_loss)))

/-! ## Specification model of the RSI algorithm

A second definition of the RSI computation, written from the words of the
spec (section 4.1): successive deltas, gain as max(d, 0) and loss as
max(-d, 0), arithmetic-mean seed over the first period values, the recursive
update avg = (avg * (period - 1) + new_value) / period, the avg_loss = 0
branch returning 100, otherwise 100 - 100 / (1 + RS) rounded to 2 digits. -/

/-- Spec step 1: successive deltas d_i = prices[i] - prices[i-1], written by
direct recursion on adjacent pairs. -/
def spec_deltas : List ℚ → List ℚ
  | a :: b :: rest => (b - a) :: spec_deltas (b :: rest)
  | _ => []

/-- Spec step 4: the recursive exponential update applied over a list. -/
def spec_smooth (period : ℕ) : ℚ → List ℚ → ℚ
  | avg, [] => avg
  | avg, x :: xs =>
    spec_smooth period ((avg * ((period : ℚ) - 1) + x) / (period : ℚ)) xs

/-- The RSI computation as the spec words it (steps 1 to 6 of section 4.1). -/
def compute_rsi_spec (prices : List ℚ) (period : ℕ := 14) : Option ℚ :=
  if prices.length < period + 1 then none
  else
    let ds := spec_deltas prices
    let gs := ds.map (fun d => max d 0)
    let ls := ds.map (fun d => max (-d) 0)
    let avg_gain := spec_smooth period ((gs.take period).sum / (period : ℚ)) (gs.drop period)
    let avg_loss := spec_smooth period ((ls.take period).sum / (period : ℚ)) (ls.drop period)
    if avg_loss = 0 then some 100
    else some (round2 (100 - 100 / (1 + avg_gain / avg_loss)))

/-! ## Lemmas about the alert dictionary -/

/-- Lookup after a dictionary assignment: the assigned key now maps to the new
time, every other key is untouched. -/
theorem lookupAlert_storeAlert (key : String) (t : ℚ) (q : String) :
    ∀ st : List (String × ℚ),
      lookupAlert (storeAlert st key t) q = if key = q then some t else lookupAlert st q
  | [] => by
    by_cases hq : key = q <;> simp [storeAlert, lookupAlert, hq]
  | (k0, t0) :: rest => by
    by_cases hk : k0 = key
    · subst hk
      by_cases hq : k0 = q <;> simp [storeAlert, lookupAlert, hq]
    · by_cases hq : k0 = q
      · subst hq
        have hkq : ¬ key = k0 := fun h => hk h.symm
        simp [storeAlert, hk, lookupAlert, hkq]
      · simp [storeAlert, hk, lookupAlert, hq, lookupAlert_storeAlert key t q rest]

/-! ## Claims about the alert deduplicator -/

/-- C1 counterexample: with a prior alert recorded at time 0 for key
EUR/USD_1h, a call at exactly 14400 seconds later with rsi = 75 returns true,
refuting the claim that a gap of exactly 14400 seconds still suppresses. -/
theorem c1_counterexample :
    (should_send_alert [("EUR/USD_1h", 0)] "EUR/USD" "1h" 75 14400).2 = true := by
  have hzone : (75 : ℚ) ≤ rsi_oversold ∨ rsi_overbought ≤ 75 :=
    Or.inr (by norm_num [rsi_overbought])
  have hlook : lookupAlert [("EUR/USD_1h", 0)] ("EUR/USD" ++ "_" ++ "1h") = some 0 := rfl
  simp only [should_send_alert]
  rw [if_neg (not_not_intro hzone), hlook]
  norm_num [cooldown_seconds]

/-- C1 amended: for a key with a prior recorded alert time and an rsi value in
an alert zone, should_send_alert returns true iff the elapsed gap is at least
14400 seconds; the suppression test of the source is strict (gap < 14400), so
a gap of exactly 14400 seconds fires. -/
theorem c1_amended_boundary (st : List (String × ℚ)) (symbol interval : String)
    (rsi t now : ℚ)
    (hlook : lookupAlert st (symbol ++ "_" ++ interval) = some t)
    (hzone : rsi ≤ rsi_oversold ∨ rsi_overbought ≤ rsi) :
    (should_send_alert st symbol interval rsi now).2 = true ↔
      cooldown_seconds ≤ now - t := by
  simp only [should_send_alert]
  rw [if_neg (not_not_intro hzone), hlook]
  by_cases hc : now - t < cooldown_seconds
  · simp [hc, not_le.mpr hc]
  · simp [hc, le_of_not_lt hc]

/-- C1 witness: the amended boundary theorem applied at a concrete state and a
gap of 14500 seconds. -/
theorem c1_witness :
    (should_send_alert [("EUR/USD_1h", 0)] "EUR/USD" "1h" 80 14500).2 = true :=
  (c1_amended_boundary [("EUR/USD_1h", 0)] "EUR/USD" "1h" 80 0 14500 (by decide)
    (Or.inr (by norm_num [rsi_overbought]))).mpr (by norm_num [cooldown_seconds])

/-- C4: while a prior recorded alert time for the key is less than 14400
seconds old, should_send_alert returns false for every rsi value, opposite
alert zones included: the cooldown is a pure time window per key. -/
theorem c4_cooldown_suppresses_all (st : List (String × ℚ)) (symbol interval : String)
    (rsi t now : ℚ)
    (hlook : lookupAlert st (symbol ++ "_" ++ interval) = some t)
    (hcool : now - t < cooldown_seconds) :
    (should_send_alert st symbol interval rsi now).2 = false := by
  simp only [should_send_alert]
  by_cases hz : (rsi ≤ rsi_oversold ∨ rsi_overbought ≤ rsi)
  · rw [if_neg (not_not_intro hz), hlook]
    simp [hcool]
  · rw [if_pos hz]

/-- C4 witness: an overbought alert recorded at time 0 suppresses an oversold
reading rsi = 15 at 14340 seconds (3 h 59 min) later. -/
theorem c4_witness :
    (should_send_alert [("EUR/USD_1h", 0)] "EUR/USD" "1h" 15 14340).2 = false :=
  c4_cooldown_suppresses_all [("EUR/USD_1h", 0)] "EUR/USD" "1h" 15 0 14340 (by decide)
    (by norm_num [cooldown_seconds])

/-- should_send_alert either rejects and returns the dictionary untouched, or
approves and returns the dictionary with the key entry overwritten. -/
theorem should_send_alert_cases (st : List (String × ℚ)) (symbol interval : String)
    (rsi now : ℚ) :
    should_send_alert st symbol interval rsi now = (st, false) ∨
    should_send_alert st symbol interval rsi now =
      (storeAlert st (symbol ++ "_" ++ interval) now, true) := by
  simp only [should_send_alert]
  by_cases hz : (rsi ≤ rsi_oversold ∨ rsi_overbought ≤ rsi)
  · rw [if_neg (not_not_intro hz)]
    cases hl : lookupAlert st (symbol ++ "_" ++ interval) with
    | none => exact Or.inr rfl
    | some t =>
      by_cases hc : now - t < cooldown_seconds
      · exact Or.inl (by simp [hc])
      · exact Or.inr (by simp [hc])
  · rw [if_pos hz]
    exact Or.inl rfl

/-- C10: should_send_alert leaves the dictionary unchanged when it returns
false and replaces exactly the entry of the approved key with the current
time when it returns true; a dictionary assignment maps the assigned key to
the new time and every other key to its previous value. -/
theorem c10_frame (st : List (String × ℚ)) (symbol interval : String) (rsi now : ℚ)
    (k : String) :
    ((should_send_alert st symbol interval rsi now).1 =
      if (should_send_alert st symbol interval rsi now).2 = true
      then storeAlert st (symbol ++ "_" ++ interval) now
      else st) ∧
    (lookupAlert (storeAlert st (symbol ++ "_" ++ interval) now) k =
      if symbol ++ "_" ++ interval = k then some now else lookupAlert st k) := by
  refine ⟨?_, lookupAlert_storeAlert (symbol ++ "_" ++ interval) now k st⟩
  rcases should_send_alert_cases st symbol interval rsi now with h | h <;> rw [h] <;> simp

/-! ## Claims about the candle scheduler -/

/-- should_check_timeframe for 4h is the closing-window test joined with the
hour-divisibility test. -/
theorem should_check_timeframe_4h (h m : ℕ) :
    should_check_timeframe "4h" h m = (decide (m ≤ 2) && decide (h % 4 = 0)) := by
  unfold should_check_timeframe
  by_cases hm : m > 2
  · have hm2 : ¬ m ≤ 2 := by omega
    simp [hm, hm2]
  · have hm2 : m ≤ 2 := by omega
    rw [if_neg hm, if_neg (by decide : ¬ ("4h" : String) = "1h"),
      if_pos (rfl : ("4h" : String) = "4h")]
    simp [hm2]

/-- should_check_timeframe for 1h is the closing-window test alone. -/
theorem should_check_timeframe_1h (h m : ℕ) :
    should_check_timeframe "1h" h m = decide (m ≤ 2) := by
  unfold should_check_timeframe
  by_cases hm : m > 2
  · have hm2 : ¬ m ≤ 2 := by omega
    simp [hm, hm2]
  · have hm2 : m ≤ 2 := by omega
    rw [if_neg hm, if_pos (rfl : ("1h" : String) = "1h")]
    simp [hm2]

/-- C6: the 4h timeframe is eligible iff the UTC hour is divisible by 4 and
the minute is at most 2; the 1h timeframe is eligible iff the minute is at
most 2; hour 13 is never eligible for 4h, hour 16 minute 1 is, hour 16
minute 5 is not. -/
theorem c6_scheduler_eligibility (h m : ℕ) :
    (should_check_timeframe "4h" h m = true ↔ (h % 4 = 0 ∧ m ≤ 2)) ∧
    (should_check_timeframe "1h" h m = true ↔ m ≤ 2) ∧
    should_check_timeframe "4h" 13 m = false ∧
    should_check_timeframe "4h" 16 1 = true ∧
    should_check_timeframe "4h" 16 5 = false := by
  refine ⟨?_, ?_, ?_, by decide, by decide⟩
  · rw [should_check_timeframe_4h]
    simp only [Bool.and_eq_true, decide_eq_true_eq]
    tauto
  · rw [should_check_timeframe_1h]
    simp
  · rw [should_check_timeframe_4h]
    simp

/-! ## Claims about the quota governor -/

/-- Iterating the counter increment n times from a fresh day state yields a
state with n requests used and the same boundary. -/
theorem record_spend_iterate (n : ℕ) (d : ℕ) :
    record_spend^[n] ⟨0, d⟩ = ⟨n, d⟩ := by
  induction n with
  | zero => rfl
  | succ k ih =>
    rw [Function.iterate_succ_apply', ih]
    rfl

/-- C5: after exactly max_daily_requests recorded spends on a day the counter
equals the ceiling and can_make_request answers false for every further call
on that day; once the current date is strictly after the stored boundary,
can_make_request resets the counter to 0, advances the boundary and answers
true; resetting is idempotent within one date, so the reset happens exactly
once per day change. -/
theorem c5_quota_day_cycle (s : QuotaState) (current_date : ℕ) :
    (record_spend^[max_daily_requests] ⟨0, current_date⟩ =
      ⟨max_daily_requests, current_date⟩) ∧
    (max_daily_requests ≤ s.daily_requests → current_date ≤ s.last_reset →
      (can_make_request s current_date).2 = false) ∧
    (s.last_reset < current_date →
      can_make_request s current_date = (⟨0, current_date⟩, true)) ∧
    (reset_daily_counter (reset_daily_counter s current_date) current_date =
      reset_daily_counter s current_date) := by
  refine ⟨record_spend_iterate max_daily_requests current_date, ?_, ?_, ?_⟩
  · intro h1 h2
    have hr : reset_daily_counter s current_date = s := by
      unfold reset_daily_counter
      rw [if_neg (by omega : ¬ current_date > s.last_reset)]
    simp only [can_make_request, hr]
    rw [decide_eq_false_iff_not]
    omega
  · intro h3
    have hr : reset_daily_counter s current_date = ⟨0, current_date⟩ := by
      unfold reset_daily_counter
      rw [if_pos h3]
    simp only [can_make_request, hr]
    simp [max_daily_requests]
  · by_cases hd : current_date > s.last_reset
    · have hr : reset_daily_counter s current_date = ⟨0, current_date⟩ := by
        unfold reset_daily_counter
        rw [if_pos hd]
      rw [hr]
      simp [reset_daily_counter]
    · have hr : reset_daily_counter s current_date = s := by
        unfold reset_daily_counter
        rw [if_neg hd]
      rw [hr]
      exact hr

/-- C5 witness: with the counter at the ceiling and boundary at day 5, a call
on day 5 answers false; a call on day 6 resets to 0 and answers true. -/
theorem c5_witness :
    (can_make_request ⟨max_daily_requests, 5⟩ 5).2 = false ∧
    can_make_request ⟨max_daily_requests, 5⟩ 6 = (⟨0, 6⟩, true) :=
  ⟨(c5_quota_day_cycle ⟨max_daily_requests, 5⟩ 5).2.1 (by decide) (by decide),
   (c5_quota_day_cycle ⟨max_daily_requests, 5⟩ 6).2.2.1 (by decide)⟩

/-! ## Claims about the fetch path quota accounting -/

/-- C2 counterexample: with the quota available, an attempt that times out
while awaiting the response leaves the counter at 0, refuting the claim that
every attempt, a timeout included, increments the counter exactly once. -/
theorem c2_counterexample :
    (get_forex_data ⟨0, 0⟩ 0 FetchOutcome.requestTimeout).1.daily_requests = 0 := by
  decide

/-- C2 amended: when the quota admits the attempt, the counter is incremented
exactly once iff a response object is obtained: an HTTP error status, an
API-embedded error code and a malformed payload all count like a success,
while a timeout or another exception raised awaiting the response does not
increment the counter. -/
theorem c2_amended_increment (s : QuotaState) (current_date : ℕ) (outcome : FetchOutcome)
    (h : (can_make_request s current_date).2 = true) :
    (get_forex_data s current_date outcome).1.daily_requests =
      (reset_daily_counter s current_date).daily_requests +
        (if receivedResponse outcome then 1 else 0) := by
  simp only [get_forex_data]
  rw [h]
  cases outcome with
  | requestTimeout => simp [receivedResponse, can_make_request]
  | requestError => simp [receivedResponse, can_make_request]
  | response status body =>
    by_cases hs : status = 200
    · subst hs
      cases body with
      | none => simp [receivedResponse, can_make_request, record_spend]
      | some codeField =>
        cases codeField with
        | none => simp [receivedResponse, can_make_request, record_spend]
        | some code =>
          by_cases hcode : code ≠ 200
          · simp [receivedResponse, can_make_request, record_spend, hcode]
          · simp [receivedResponse, can_make_request, record_spend, hcode]
    · simp [receivedResponse, can_make_request, record_spend, hs]

/-- C2 witness: the amended theorem applied to a 200 response carrying a
malformed body, which increments the counter from 0 to 1. -/
theorem c2_witness :
    (get_forex_data ⟨0, 0⟩ 0 (FetchOutcome.response 200 none)).1.daily_requests =
      (reset_daily_counter ⟨0, 0⟩ 0).daily_requests + 1 :=
  c2_amended_increment ⟨0, 0⟩ 0 (FetchOutcome.response 200 none) (by decide)

/-! ## Claims about the RSI engine -/

/-- The recursive delta list of the spec model equals the delta list of the
embedding. -/
theorem spec_deltas_eq : ∀ prices : List ℚ, spec_deltas prices = rsiDeltas prices
  | [] => rfl
  | [_] => rfl
  | a :: b :: rest => by
    show (b - a) :: spec_deltas (b :: rest) = rsiDeltas (a :: b :: rest)
    rw [spec_deltas_eq (b :: rest)]
    rfl

/-- The gain of the spec model, max(d, 0), agrees with the conditional of the
source. -/
theorem max_eq_if_gain (d : ℚ) : max d 0 = if 0 < d then d else 0 := by
  rcases le_or_lt d 0 with h | h
  · rw [max_eq_right h, if_neg (not_lt.mpr h)]
  · rw [max_eq_left (le_of_lt h), if_pos h]

/-- The loss of the spec model, max(-d, 0), agrees with the conditional of
the source. -/
theorem max_eq_if_loss (d : ℚ) : max (-d) 0 = if d < 0 then -d else 0 := by
  rcases lt_or_le d 0 with h | h
  · rw [if_pos h, max_eq_left (by linarith)]
  · rw [if_neg (not_lt.mpr h), max_eq_right (by linarith)]

/-- The recursive smoothing of the spec model equals the fold of the
embedding. -/
theorem spec_smooth_eq (period : ℕ) : ∀ (l : List ℚ) (avg : ℚ),
    spec_smooth period avg l = l.foldl (wilderStep period) avg
  | [], _ => rfl
  | x :: xs, avg => by
    show spec_smooth period ((avg * ((period : ℚ) - 1) + x) / (period : ℚ)) xs =
      (x :: xs).foldl (wilderStep period) avg
    rw [List.foldl_cons, spec_smooth_eq period xs]
    rfl

/-- C3: on every price series of sufficient length, calculate_rsi computes
exactly the Wilders-smoothing reference described by the spec: deltas, gain
and loss split, arithmetic-mean seeds over the first 14 values, recursive
update avg = (avg * 13 + new) / 14, and round(100 - 100 / (1 + RS), 2), with
the avg_loss = 0 branch returning 100. -/
theorem c3_rsi_matches_spec (prices : List ℚ) (h : 15 ≤ prices.length) :
    calculate_rsi prices 14 = compute_rsi_spec prices 14 := by
  have hfg : (fun d : ℚ => max d 0) = (fun d => if 0 < d then d else 0) :=
    funext max_eq_if_gain
  have hfl : (fun d : ℚ => max (-d) 0) = (fun d => if d < 0 then -d else 0) :=
    funext max_eq_if_loss
  simp only [calculate_rsi, compute_rsi_spec, smoothedAvg, spec_deltas_eq, hfg, hfl,
    spec_smooth_eq, rsiGains, rsiLosses]

/-- C3 witness: the equivalence applied to a concrete 15-value sequence. -/
theorem c3_witness :
    15 ≤ ([1, 3, 2, 4, 3, 5, 4, 6, 5, 7, 6, 8, 7, 9, 8] : List ℚ).length ∧
    calculate_rsi [1, 3, 2, 4, 3, 5, 4, 6, 5, 7, 6, 8, 7, 9, 8] 14 =
      compute_rsi_spec [1, 3, 2, 4, 3, 5, 4, 6, 5, 7, 6, 8, 7, 9, 8] 14 :=
  ⟨by decide, c3_rsi_matches_spec [1, 3, 2, 4, 3, 5, 4, 6, 5, 7, 6, 8, 7, 9, 8] (by decide)⟩

/-- C9: on every price series shorter than 15 values, calculate_rsi takes the
early guard and returns none; the Lean embedding is a total function, so no
exception can arise. -/
theorem c9_short_series_none (prices : List ℚ) (h : prices.length < 15) :
    calculate_rsi prices 14 = none := by
  unfold calculate_rsi
  rw [if_pos h]

/-- C9 witness: a three-value series yields none. -/
theorem c9_witness : calculate_rsi [1, 2, 3] 14 = none :=
  c9_short_series_none [1, 2, 3] (by decide)

/-- In a strictly increasing price list every delta is positive. -/
theorem rsiDeltas_pos : ∀ prices : List ℚ, List.Chain' (· < ·) prices →
    ∀ d ∈ rsiDeltas prices, 0 < d
  | [], _, d, hd => by simp [rsiDeltas] at hd
  | [_], _, d, hd => by simp [rsiDeltas] at hd
  | a :: b :: rest, h, d, hd => by
    rw [List.chain'_cons] at h
    have he : rsiDeltas (a :: b :: rest) = (b - a) :: rsiDeltas (b :: rest) := rfl
    rw [he] at hd
    rcases List.mem_cons.mp hd with h1 | h1
    · subst h1
      have hab : a < b := h.1
      linarith
    · exact rsiDeltas_pos (b :: rest) h.2 d h1

/-- In a strictly decreasing price list every delta is negative. -/
theorem rsiDeltas_neg : ∀ prices : List ℚ, List.Chain' (· > ·) prices →
    ∀ d ∈ rsiDeltas prices, d < 0
  | [], _, d, hd => by simp [rsiDeltas] at hd
  | [_], _, d, hd => by simp [rsiDeltas] at hd
  | a :: b :: rest, h, d, hd => by
    rw [List.chain'_cons] at h
    have he : rsiDeltas (a :: b :: rest) = (b - a) :: rsiDeltas (b :: rest) := rfl
    rw [he] at hd
    rcases List.mem_cons.mp hd with h1 | h1
    · subst h1
      have hab : b < a := h.1
      linarith
    · exact rsiDeltas_neg (b :: rest) h.2 d h1

/-- With positive deltas every loss entry is zero. -/
theorem rsiLosses_zero (prices : List ℚ) (h : List.Chain' (· < ·) prices) :
    ∀ x ∈ rsiLosses prices, x = 0 := by
  intro x hx
  unfold rsiLosses at hx
  rcases List.mem_map.mp hx with ⟨d, hd, rfl⟩
  have hdpos := rsiDeltas_pos prices h d hd
  rw [if_neg (by linarith)]

/-- With negative deltas every gain entry is zero. -/
theorem rsiGains_zero (prices : List ℚ) (h : List.Chain' (· > ·) prices) :
    ∀ x ∈ rsiGains prices, x = 0 := by
  intro x hx
  unfold rsiGains at hx
  rcases List.mem_map.mp hx with ⟨d, hd, rfl⟩
  have hdneg := rsiDeltas_neg prices h d hd
  rw [if_neg (by linarith)]

/-- With negative deltas every loss entry is positive. -/
theorem rsiLosses_pos (prices : List ℚ) (h : List.Chain' (· > ·) prices) :
    ∀ x ∈ rsiLosses prices, 0 < x := by
  intro x hx
  unfold rsiLosses at hx
  rcases List.mem_map.mp hx with ⟨d, hd, rfl⟩
  have hdneg := rsiDeltas_neg prices h d hd
  rw [if_pos hdneg]
  linarith

/-- Folding the smoothing step over a list of zeros from a zero average gives
zero. -/
theorem foldl_wilderStep_zero (period : ℕ) : ∀ l : List ℚ, (∀ x ∈ l, x = 0) →
    l.foldl (wilderStep period) 0 = 0
  | [], _ => rfl
  | x :: xs, h => by
    have hx : x = 0 := h x (List.mem_cons_self x xs)
    rw [List.foldl_cons]
    have hstep : wilderStep period 0 x = 0 := by
      simp [wilderStep, hx]
    rw [hstep]
    exact foldl_wilderStep_zero period xs (fun y hy => h y (List.mem_cons_of_mem x hy))

/-- The smoothed average of a list of zeros is zero. -/
theorem smoothedAvg_zero (period : ℕ) (l : List ℚ) (h : ∀ x ∈ l, x = 0) :
    smoothedAvg period l = 0 := by
  unfold smoothedAvg
  have hsum : (l.take period).sum = 0 :=
    List.sum_eq_zero (fun x hx => h x (List.take_subset period l hx))
  rw [hsum, zero_div]
  exact foldl_wilderStep_zero period (l.drop period)
    (fun x hx => h x (List.drop_subset period l hx))

/-- Folding the 14-period smoothing step over nonnegative values keeps the
average positive. -/
theorem foldl_wilderStep14_pos : ∀ (l : List ℚ) (a : ℚ), 0 < a → (∀ x ∈ l, 0 ≤ x) →
    0 < l.foldl (wilderStep 14) a
  | [], _, ha, _ => ha
  | x :: xs, a, ha, h => by
    rw [List.foldl_cons]
    have hx : 0 ≤ x := h x (List.mem_cons_self x xs)
    have hstep : 0 < wilderStep 14 a x := by
      unfold wilderStep
      have h13 : (0 : ℚ) < a * (((14 : ℕ) : ℚ) - 1) := by
        apply mul_pos ha
        push_cast
        norm_num
      apply div_pos (by linarith) (by push_cast; norm_num)
    exact foldl_wilderStep14_pos xs (wilderStep 14 a x) hstep
      (fun y hy => h y (List.mem_cons_of_mem x hy))

/-- The 14-period smoothed average of a list of at least 14 positive entries
is positive. -/
theorem smoothedAvg14_pos (l : List ℚ) (hlen : 14 ≤ l.length)
    (hpos : ∀ x ∈ l, 0 < x) : 0 < smoothedAvg 14 l := by
  unfold smoothedAvg
  have htake : ∀ x ∈ l.take 14, 0 < x := fun x hx => hpos x (List.take_subset 14 l hx)
  have hne : l.take 14 ≠ [] := by
    have hlt : (l.take 14).length = 14 := by
      rw [List.length_take]
      omega
    intro hcon
    rw [hcon] at hlt
    simp at hlt
  have hsum : 0 < (l.take 14).sum := List.sum_pos (l.take 14) htake hne
  have hseed : 0 < (l.take 14).sum / ((14 : ℕ) : ℚ) :=
    div_pos hsum (by push_cast; norm_num)
  exact foldl_wilderStep14_pos (l.drop 14) _ hseed
    (fun x hx => le_of_lt (hpos x (List.drop_subset 14 l hx)))

/-- C7: on a strictly increasing price series of length at least 15,
calculate_rsi returns exactly 100 through the avg_loss = 0 branch, so the
division by avg_loss is never taken. -/
theorem c7_uptrend_returns_100 (prices : List ℚ)
    (hmono : List.Chain' (· < ·) prices) (hlen : 15 ≤ prices.length) :
    calculate_rsi prices 14 = some 100 ∧ smoothedAvg 14 (rsiLosses prices) = 0 := by
  have hloss : smoothedAvg 14 (rsiLosses prices) = 0 :=
    smoothedAvg_zero 14 (rsiLosses prices) (rsiLosses_zero prices hmono)
  refine ⟨?_, hloss⟩
  simp only [calculate_rsi]
  rw [if_neg (by omega : ¬ prices.length < 14 + 1), if_pos hloss]

/-- C7 witness: the uptrend theorem applied to the series 1 to 15. -/
theorem c7_witness :
    calculate_rsi [1, 2, 3, 4, 5, 6, 7, 8, 9, 10, 11, 12, 13, 14, 15] 14 = some 100 :=
  (c7_uptrend_returns_100 [1, 2, 3, 4, 5, 6, 7, 8, 9, 10, 11, 12, 13, 14, 15]
    (by norm_num [List.chain'_cons]) (by decide)).1

/-- C8: on a strictly decreasing price series of length at least 15,
calculate_rsi returns 0, and both data-dependent divisors, the final avg_loss
and 1 + RS, are nonzero, so no division by zero occurs (the remaining
divisor is the literal period 14). -/
theorem c8_downtrend_returns_0 (prices : List ℚ)
    (hmono : List.Chain' (· > ·) prices) (hlen : 15 ≤ prices.length) :
    calculate_rsi prices 14 = some 0 ∧
    smoothedAvg 14 (rsiLosses prices) ≠ 0 ∧
    (1 : ℚ) + smoothedAvg 14 (rsiGains prices) / smoothedAvg 14 (rsiLosses prices) ≠ 0 := by
  have hgain : smoothedAvg 14 (rsiGains prices) = 0 :=
    smoothedAvg_zero 14 (rsiGains prices) (rsiGains_zero prices hmono)
  have hlosslen : 14 ≤ (rsiLosses prices).length := by
    unfold rsiLosses rsiDeltas
    rw [List.length_map, List.length_zipWith, List.length_tail]
    omega
  have hlosspos : 0 < smoothedAvg 14 (rsiLosses prices) :=
    smoothedAvg14_pos (rsiLosses prices) hlosslen (rsiLosses_pos prices hmono)
  have hne : smoothedAvg 14 (rsiLosses prices) ≠ 0 := ne_of_gt hlosspos
  have hrs : smoothedAvg 14 (rsiGains prices) / smoothedAvg 14 (rsiLosses prices) = 0 := by
    rw [hgain, zero_div]
  refine ⟨?_, hne, by rw [hrs]; norm_num⟩
  simp only [calculate_rsi]
  rw [if_neg (by omega : ¬ prices.length < 14 + 1), if_neg hne, hrs]
  norm_num [round2]

/-- C8 witness: the downtrend theorem applied to the series 15 down to 1. -/
theorem c8_witness :
    calculate_rsi [15, 14, 13, 12, 11, 10, 9, 8, 7, 6, 5, 4, 3, 2, 1] 14 = some 0 :=
  (c8_downtrend_returns_0 [15, 14, 13, 12, 11, 10, 9, 8, 7, 6, 5, 4, 3, 2, 1]
    (by norm_num [List.chain'_cons]) (by decide)).1
